import Mathlib

/-!
Verification of the coefficient-table and expression-binding core of the
i.landsat8.swlst repository.

The development shallowly embeds the two source files:

* `csv_avg_emissivity_to_dictionary.py` — the helpers `is_number`,
  `replace_dot_comma_space`, the row transforms `transform` and
  `transform_cwv`, and `csv_to_dictionary`;
* `i.landsat.swlst.py` — the placeholder binder `replace_dummies`.

Python strings are modelled as Lean `String`; Python exceptions are modelled
by `Except String` with the error string recording the exception kind and,
for index errors, the failing list and index.  The split-window model
(class `SplitWindowLST` of module `split_window_lst`) is not part of the
repository sources, so it is modelled from the specification text; those
definitions are marked `Modelled from the spec`.
-/

set_option maxRecDepth 20000

/-- Decidable equality for `Except`, used to evaluate the embedding on
concrete inputs. -/
instance {ε α : Type} [DecidableEq ε] [DecidableEq α] : DecidableEq (Except ε α) := fun x y =>
  match x, y with
  | Except.error e, Except.error f =>
    if h : e = f then Decidable.isTrue (by rw [h])
    else Decidable.isFalse (fun hc => h (Except.error.inj hc))
  | Except.error _, Except.ok _ => Decidable.isFalse (fun hc => Except.noConfusion hc)
  | Except.ok _, Except.error _ => Decidable.isFalse (fun hc => Except.noConfusion hc)
  | Except.ok a, Except.ok b =>
    if h : a = b then Decidable.isTrue (by rw [h])
    else Decidable.isFalse (fun hc => h (Except.ok.inj hc))

/-! ## Python string primitives -/

/-- Whitespace characters recognised by the Python numeric parsers. -/
def isPySpace (c : Char) : Bool :=
  c = ' ' || c = '\t' || c = '\n' || c = '\r' || c = Char.ofNat 11 || c = Char.ofNat 12

/-- Auxiliary scanner for `pySplitChar`: splits a character list at every
occurrence of the separator, keeping empty pieces, as Python
`str.split(sep)` does for a one-character separator. -/
def splitOnCharAux (sep : Char) : List Char → List Char → List (List Char)
  | [], acc => [acc.reverse]
  | c :: rest, acc =>
    if c = sep then acc.reverse :: splitOnCharAux sep rest []
    else splitOnCharAux sep rest (c :: acc)

/-- Model of Python `s.split(sep)` for a one-character separator: all
occurrences split, empty pieces kept, and the result is never empty. -/
def pySplitChar (sep : Char) (s : String) : List String :=
  (splitOnCharAux sep s.data []).map (fun l => String.mk l)

/-- Model of Python `str.replace(pat, rep)`: left-to-right scan replacing
every non-overlapping occurrence of `pat` by `rep`.  The sources only call
it with a non-empty pattern; for the (never used) empty pattern this model
returns the input unchanged. -/
def pyReplaceAux (pat rep : List Char) : Nat → List Char → List Char
  | _, [] => []
  | 0, l => l
  | fuel + 1, c :: rest =>
    if pat ≠ [] ∧ pat.isPrefixOf (c :: rest) then
      rep ++ pyReplaceAux pat rep fuel ((c :: rest).drop pat.length)
    else
      c :: pyReplaceAux pat rep fuel rest

/-- The scan of `pyReplaceAux` started with enough fuel: every step
consumes at least one character and exactly one unit of fuel, so fuel equal
to the length of the list is never exhausted. -/
def pyReplaceChars (pat rep l : List Char) : List Char :=
  pyReplaceAux pat rep l.length l

/-- String wrapper around `pyReplaceChars`. -/
def pyReplaceStr (s pat rep : String) : String :=
  String.mk (pyReplaceChars pat.data rep.data s.data)

/-- Substring test: does `pat` occur inside `s`. -/
def strContains (s pat : String) : Bool :=
  s.data.tails.any (fun t => pat.data.isPrefixOf t)

/-! ## Python `float()` and `complex()` acceptance on strings

The helper `is_number` of the source calls the builtins `float(value)` and
`complex(value)` and only distinguishes success from `ValueError`.  The
recognisers below model which strings those builtins accept
(CPython 2.7: `PyOS_string_to_double` for `float`, the parser of
`complexobject.c` for `complex`). -/

/-- Consume a case-insensitive keyword (given in lowercase). -/
def eatCI : List Char → List Char → Option (List Char)
  | [], l => some l
  | _ :: _, [] => none
  | k :: ks, c :: cs => if c.toLower = k then eatCI ks cs else none

/-- Consume one or more decimal digits. -/
def eatDigits1 : List Char → Option (List Char)
  | [] => none
  | c :: cs => if c.isDigit then some (cs.dropWhile Char.isDigit) else none

/-- Consume an optional exponent part `[eE][+-]?digits`.  If the characters
after `e`/`E` do not form a valid exponent, nothing is consumed (the
leftover then fails the trailing-junk check, as in `strtod`). -/
def eatExpOpt (l : List Char) : List Char :=
  match l with
  | [] => []
  | c :: rest =>
    if c = 'e' || c = 'E' then
      let rest2 := match rest with
                   | s :: r2 => if s = '+' || s = '-' then r2 else rest
                   | [] => rest
      match eatDigits1 rest2 with
      | some r => r
      | none => c :: rest
    else c :: rest

/-- Consume an unsigned float literal: `digits ['.' digits*] [exp]`,
`'.' digits [exp]`, or the keywords `inf`, `infinity`, `nan`
(case-insensitive). -/
def eatUnsignedFloat (l : List Char) : Option (List Char) :=
  match eatCI "infinity".data l with
  | some r => some r
  | none =>
  match eatCI "inf".data l with
  | some r => some r
  | none =>
  match eatCI "nan".data l with
  | some r => some r
  | none =>
  match l with
  | '.' :: rest =>
    (match eatDigits1 rest with
     | some r => some (eatExpOpt r)
     | none => none)
  | _ =>
    match eatDigits1 l with
    | some r =>
      let r2 := match r with
                | '.' :: rr => rr.dropWhile Char.isDigit
                | _ => r
      some (eatExpOpt r2)
    | none => none

/-- Consume an optional leading sign. -/
def eatSignOpt : List Char → List Char
  | [] => []
  | c :: rest => if c = '+' || c = '-' then rest else c :: rest

/-- Model of the acceptance of Python 2 `float(s)` on a string:
optional surrounding whitespace around an optionally signed float literal. -/
def isPyFloat (s : String) : Bool :=
  let l := s.data.dropWhile isPySpace
  match eatUnsignedFloat (eatSignOpt l) with
  | some r => (r.dropWhile isPySpace).isEmpty
  | none => false

/-- Consume a signed float literal with no leading whitespace, as the float
sub-parser inside the complex parser does; `none` means nothing consumed. -/
def eatFloat (l : List Char) : Option (List Char) :=
  eatUnsignedFloat (eatSignOpt l)

/-- Main body of the complex parser: after the optional opening bracket,
accept `<float>`, `<float>j`, `<float><signed-float>j`, `<float><sign>j`,
`<sign>j` or `j`, returning the unconsumed rest. -/
def eatComplexBody (l : List Char) : Option (List Char) :=
  match eatFloat l with
  | some r =>
    (match r with
     | [] => some []
     | c :: rest =>
       if c = '+' || c = '-' then
         match eatFloat r with
         | some r2 =>
           (match r2 with
            | j :: r3 => if j = 'j' || j = 'J' then some r3 else none
            | [] => none)
         | none =>
           (match rest with
            | j :: r3 => if j = 'j' || j = 'J' then some r3 else none
            | [] => none)
       else if c = 'j' || c = 'J' then some rest
       else some r)
  | none =>
    match eatSignOpt l with
    | j :: r => if j = 'j' || j = 'J' then some r else none
    | [] => none

/-- Model of the acceptance of Python 2 `complex(s)` on a string:
optional whitespace, optional matching parentheses, and a complex literal
in one of the forms handled by `eatComplexBody`. -/
def isPyComplex (s : String) : Bool :=
  let l := s.data.dropWhile isPySpace
  let stripped : List Char × Bool :=
    match l with
    | '(' :: rest => (rest.dropWhile isPySpace, true)
    | _ => (l, false)
  match eatComplexBody stripped.1 with
  | none => false
  | some r =>
    let r := r.dropWhile isPySpace
    if stripped.2 then
      match r with
      | ')' :: rr => ((rr.dropWhile isPySpace).isEmpty : Bool)
      | _ => false
    else r.isEmpty

/-! ## Values and the helper `is_number` -/

/-- Value stored in a parsed record: the source keeps the original field
string when `float` or `complex` accepts it, and the Python boolean `False`
otherwise, so only these two shapes occur. -/
inductive PyVal where
  | str (s : String)
  | bool (b : Bool)
deriving DecidableEq

/-- Model of `is_number` (csv_avg_emissivity_to_dictionary.py, lines 43-54):
try `float(value)`; on `ValueError` try `complex(value)`; if both fail
return `False`; otherwise return the original value unchanged. -/
def is_number (value : String) : PyVal :=
  if isPyFloat value then PyVal.str value
  else if isPyComplex value then PyVal.str value
  else PyVal.bool false

/-! ## Key canonicalization and the placeholder binder -/

/-- Model of `replace_dot_comma_space` (lines 57-63): the `reduce` over the
fixed replacement sequence, applied left to right. -/
def replace_dot_comma_space (s : String) : String :=
  let replacements : List (String × String) :=
    [(".", ""), (", ", "_"), (",", "_"), (" ", "_"), ("(", ""), (")", ""), ("/", "_")]
  replacements.foldl (fun alpha omega => pyReplaceStr alpha omega.1 omega.2) s

/-- Model of `replace_dummies` (i.landsat.swlst.py, lines 231-240): the
`reduce` over the two replacement pairs, so all occurrences of
`Input_T10` are replaced by `t10` first, and then all occurrences of
`Input_T11` in the resulting string are replaced by `t11`. -/
def replace_dummies (string t10 t11 : String) : String :=
  let replacements : List (String × String) := [("Input_T10", t10), ("Input_T11", t11)]
  replacements.foldl (fun alpha omega => pyReplaceStr alpha omega.1 omega.2) string

/-! ## Records and the Python dictionary -/

/-- Record stored for one CWV-table row: the source sets these ten fixed
attributes on the per-row namedtuple class. -/
structure CwvRecord where
  subrange : PyVal
  b0 : PyVal
  b1 : PyVal
  b2 : PyVal
  b3 : PyVal
  b4 : PyVal
  b5 : PyVal
  b6 : PyVal
  b7 : PyVal
  rmse : PyVal
deriving DecidableEq

/-- Record stored for one emissivity-table row by the (never invoked)
3-field transform. -/
structure EmissivityRecord where
  TIRS10 : PyVal
  TIRS11 : PyVal
deriving DecidableEq

/-- Record with all fields `False`; used only as a `getD` default. -/
def emptyRec : CwvRecord :=
  ⟨PyVal.bool false, PyVal.bool false, PyVal.bool false, PyVal.bool false,
   PyVal.bool false, PyVal.bool false, PyVal.bool false, PyVal.bool false,
   PyVal.bool false, PyVal.bool false⟩

/-- The Python dictionary, modelled as an association list in insertion
order (lookup does not depend on the order, only on first insertion). -/
abbrev PyDict := List (String × CwvRecord)

/-- Model of `dictionary[key]` lookup. -/
def lookup (k : String) (d : PyDict) : Option CwvRecord :=
  (d.find? (fun p => p.1 == k)).map (fun p => p.2)

/-- Model of `dictionary[key] = dictionary.get(key, v)` (lines 133 and 164):
when the key is present the existing entry is kept unchanged, otherwise the
new pair is appended. -/
def dictInsert (d : PyDict) (k : String) (v : CwvRecord) : PyDict :=
  if (lookup k d).isSome then d else d ++ [(k, v)]

/-! ## The namedtuple name validation of Python 2.7

Both transforms call `collections.namedtuple(key, [...])`, which in
Python 2.7 validates the type name and all field names before the row
values are read; an invalid name raises there.  The checks, in source
order: every name must be alphanumeric-or-underscore, not a keyword and
not start with a digit (an empty name hits an index error on `name[0]`);
then every field name must not start with an underscore and must be
unique. -/

/-- Python 2 keywords, as tested by `keyword.iskeyword`.  Only membership
matters, so the list order is immaterial. -/
def pyKeywords : List String :=
  ["and", "as", "assert", "break", "class", "continue", "def", "del",
   "elif", "else", "except", "exec", "finally", "for", "from", "global",
   "if", "in", "is", "lambda", "not", "or", "pass",
   "print", "raise", "return", "try", "while", "with", "yield",
   "import"]

/-- First validation loop of `namedtuple` for a single name. -/
def namedtupleNameCheck (name : String) : Except String Unit :=
  if ¬ (name.data.all (fun c => c.isAlphanum || c = '_')) then
    Except.error ("ValueError: invalid characters in name " ++ name)
  else if pyKeywords.contains name then
    Except.error ("ValueError: name is a keyword " ++ name)
  else
    match name.data with
    | [] => Except.error "IndexError: string index out of range"
    | c :: _ =>
      if c.isDigit then Except.error ("ValueError: name starts with digit " ++ name)
      else Except.ok ()

/-- Second validation loop of `namedtuple` over the field names, carrying
the set of names already seen. -/
def namedtupleFieldLoop : List String → List String → Except String Unit
  | [], _ => Except.ok ()
  | n :: rest, seen =>
    if n.data.headD ' ' = '_' then
      Except.error ("ValueError: field name starts with underscore " ++ n)
    else if seen.contains n then
      Except.error ("ValueError: duplicate field name " ++ n)
    else namedtupleFieldLoop rest (n :: seen)

/-- Model of the validation performed by `collections.namedtuple(typename,
field_names)` in Python 2.7. -/
def namedtupleCheck (typename : String) (fieldNames : List String) : Except String Unit := do
  namedtupleNameCheck typename
  fieldNames.forM namedtupleNameCheck
  namedtupleFieldLoop fieldNames []

/-! ## The row transforms and `csv_to_dictionary` -/

/-- Index bound check for a run of list accesses `l[0] ... l[n-1]` executed
in order: the first failing access is `l[len l]`, mirrored in the error
string of the raised `IndexError`. -/
def checkLen (name : String) (l : List String) (n : Nat) : Except String Unit :=
  if n ≤ l.length then Except.ok ()
  else Except.error ("IndexError: " ++ name ++ "[" ++ toString l.length ++ "]")

/-- Record built by `transform_cwv` from the split row: each stored value
is `is_number` of the corresponding element. -/
def mkRec (elements : List String) : CwvRecord :=
  ⟨is_number (elements.getD 0 ""), is_number (elements.getD 1 ""),
   is_number (elements.getD 2 ""), is_number (elements.getD 3 ""),
   is_number (elements.getD 4 ""), is_number (elements.getD 5 ""),
   is_number (elements.getD 6 ""), is_number (elements.getD 7 ""),
   is_number (elements.getD 8 ""), is_number (elements.getD 9 "")⟩

/-- Model of `transform_cwv` (lines 135-164).  Python evaluation order:
`elements[0]` (never fails, a split is non-empty), the namedtuple argument
list `fields[0] ... fields[9]` each canonicalized, the `namedtuple` call
with its name validation, then the values `elements[0] ... elements[9]`.
The stored record carries the values; the computed field names only matter
through the validation, because the source assigns the fixed attribute
names `subrange`, `b0` ... `rmse` afterwards. -/
def transform_cwv (fields : List String) (row : String) : Except String (String × CwvRecord) :=
  let elements := pySplitChar '|' row
  let key := replace_dot_comma_space (elements.headD "")
  match checkLen "fields" fields 10 with
  | Except.error e => Except.error e
  | Except.ok _ =>
    match namedtupleCheck key ((fields.take 10).map replace_dot_comma_space) with
    | Except.error e => Except.error e
    | Except.ok _ =>
      match checkLen "elements" elements 10 with
      | Except.error e => Except.error e
      | Except.ok _ => Except.ok (key, mkRec elements)

/-- Model of `transform` (lines 123-133), the 3-field emissivity transform.
It is defined in the source but its call site (line 166) is commented out,
so `csv_to_dictionary` never invokes it.  Its namedtuple uses the raw
header fields, not canonicalized ones. -/
def transform (fields : List String) (row : String) : Except String (String × EmissivityRecord) :=
  let elements := pySplitChar '|' row
  let key := replace_dot_comma_space (elements.headD "")
  match checkLen "fields" fields 2 with
  | Except.error e => Except.error e
  | Except.ok _ =>
    match namedtupleCheck key (fields.take 2) with
    | Except.error e => Except.error e
    | Except.ok _ =>
      match checkLen "elements" elements 3 with
      | Except.error e => Except.error e
      | Except.ok _ =>
        Except.ok (key, ⟨is_number (elements.getD 1 ""), is_number (elements.getD 2 "")⟩)

/-- Data rows of a table text: everything after the header line
(`rows.pop(0)` in the source). -/
def dataRows (csvText : String) : List String :=
  (pySplitChar '\n' csvText).drop 1

/-- Header fields of a table text: the header line split on the delimiter,
with the first (key) column dropped (`rows.pop(0).split(sep)[1:]`). -/
def tableFields (csvText : String) : List String :=
  (pySplitChar '|' ((pySplitChar '\n' csvText).headD "")).drop 1

/-- Model of `csv_to_dictionary` (lines 108-168): split into rows, pop the
header, and feed every data row through `transform_cwv` (the active line
167; the 3-field `transform` call is commented out), aborting at the first
raised exception. -/
def csv_to_dictionary (csvText : String) : Except String PyDict :=
  (dataRows csvText).foldlM
    (fun d row => (transform_cwv (tableFields csvText) row).map (fun kv => dictInsert d kv.1 kv.2))
    ([] : PyDict)

/-- The embedded emissivity table of the module (lines 16-26).  In the
source the binding named `csv` is immediately shadowed by `import csv`,
but the text itself is the 3-column table referenced by the claims. -/
def embedded_emissivity_csv : String :=
  "Emissivity Class|TIRS10|TIRS11\nCropland|0.971|0.968\nForest|0.995|0.996\nGrasslands|0.97|0.971\nShrublands|0.969|0.97\nWetlands|0.992|0.998\nWaterbodies|0.992|0.998\nTundra|0.98|0.984\nImpervious|0.973|0.981\nBarren Land|0.969|0.978\nSnow and ice|0.992|0.998"

/-- Field values of a CWV record in source order. -/
def recVals (r : CwvRecord) : List PyVal :=
  [r.subrange, r.b0, r.b1, r.b2, r.b3, r.b4, r.b5, r.b6, r.b7, r.rmse]

/-! ## The split-window model

The class `SplitWindowLST` lives in the module `split_window_lst`, which is
imported by `i.landsat.swlst.py` but is not among the repository sources,
so the following definitions are modelled from the specification text
(sections 3 and 4.4).  Numeric values are modelled as rationals. -/

/-- Modelled from the spec: an emissivity pair (band i, band j), section 3. -/
structure Emissivity where
  ei : Rat
  ej : Rat
deriving DecidableEq

/-- Modelled from the spec: a split-window coefficient set b0..b7 plus fit
error, section 3. -/
structure SplitWindowCoefficients where
  b0 : Rat
  b1 : Rat
  b2 : Rat
  b3 : Rat
  b4 : Rat
  b5 : Rat
  b6 : Rat
  b7 : Rat
  rmse : Rat
deriving DecidableEq

/-- Modelled from the spec: the split-window model value object, built from
one emissivity pair and one coefficient set; construction is a total
structure constructor and never fails (section 4.4). -/
structure SplitWindowModel where
  emissivity : Emissivity
  coefficients : SplitWindowCoefficients
deriving DecidableEq

/-- Modelled from the spec: the derived average emissivity
0.5 * (ei + ej). -/
def SplitWindowModel.epsilonAvg (m : SplitWindowModel) : Rat :=
  (m.emissivity.ei + m.emissivity.ej) / 2

/-- Modelled from the spec: the derived emissivity difference ei - ej. -/
def SplitWindowModel.epsilonDiff (m : SplitWindowModel) : Rat :=
  m.emissivity.ei - m.emissivity.ej

/-- Modelled from the spec: `compute(t_i, t_j)` of section 4.4, failing
with `DomainError` when the average emissivity is zero and otherwise
evaluating the split-window formula. -/
def SplitWindowModel.compute (m : SplitWindowModel) (ti tj : Rat) : Except String Rat :=
  let e := m.epsilonAvg
  let de := m.epsilonDiff
  let c := m.coefficients
  if e = 0 then Except.error "DomainError"
  else Except.ok (c.b0
    + (c.b1 + c.b2 * (1 - e) / e + c.b3 * de / e ^ 2) * ((ti + tj) / 2)
    + (c.b4 + c.b5 * (1 - e) / e + c.b6 * de / e ^ 2) * ((ti - tj) / 2)
    + c.b7 * (ti - tj) ^ 2)

/-! ## Helper lemmas -/

/-- The helper `is_number` only ever returns the original string or the
Python boolean `False`. -/
theorem is_number_shape (s : String) :
    is_number s = PyVal.str s ∨ is_number s = PyVal.bool false := by
  unfold is_number
  by_cases h1 : isPyFloat s
  · left; simp [h1]
  · by_cases h2 : isPyComplex s
    · left; simp [h1, h2]
    · right; simp [h1, h2]

/-- A bind in the `Except` monad yields `ok` exactly when both stages do. -/
theorem except_bind_ok {ε α β : Type} (e : Except ε α) (g : α → Except ε β) (b : β) :
    (e >>= g) = Except.ok b ↔ ∃ a, e = Except.ok a ∧ g a = Except.ok b := by
  cases e <;> simp [Bind.bind, Except.bind]

/-- Membership transfer along a successful `mapM` in the `Except` monad. -/
theorem mapM_ok_mem {α β : Type} (f : α → Except String β) :
    ∀ (l : List α) (l' : List β), l.mapM f = Except.ok l' →
      ∀ b ∈ l', ∃ a ∈ l, f a = Except.ok b := by
  intro l
  induction l with
  | nil =>
    intro l' h b hb
    simp only [List.mapM_nil, pure, Except.pure, Except.ok.injEq] at h
    subst h
    simp at hb
  | cons a as ih =>
    intro l' h b hb
    rw [List.mapM_cons] at h
    obtain ⟨x, hx, h⟩ := (except_bind_ok _ _ _).mp h
    obtain ⟨xs, hxs, h⟩ := (except_bind_ok _ _ _).mp h
    simp only [pure, Except.pure, Except.ok.injEq] at h
    subst h
    rcases List.mem_cons.mp hb with hb | hb
    · exact ⟨a, List.mem_cons_self a as, hb ▸ hx⟩
    · obtain ⟨a', ha', hfa'⟩ := ih xs hxs b hb
      exact ⟨a', List.mem_cons_of_mem a ha', hfa'⟩

/-- Looking up in a dictionary after a first-wins insertion keeps an
existing binding. -/
theorem lookup_dictInsert_some {k : String} {d : PyDict} {v : CwvRecord}
    (k' : String) (w : CwvRecord) (h : lookup k d = some v) :
    lookup k (dictInsert d k' w) = some v := by
  unfold dictInsert
  split
  · exact h
  · unfold lookup at h ⊢
    rw [List.find?_append]
    obtain ⟨p, hp, hpv⟩ := Option.map_eq_some'.mp h
    simp [hp, hpv]

/-- Looking up in a dictionary after a first-wins insertion of a fresh key. -/
theorem lookup_dictInsert_none {k : String} {d : PyDict}
    (k' : String) (w : CwvRecord) (h : lookup k d = none) :
    lookup k (dictInsert d k' w) = if k' == k then some w else none := by
  unfold dictInsert
  split
  case isTrue hs =>
    obtain ⟨u, hu⟩ := Option.isSome_iff_exists.mp hs
    by_cases hkk : k' = k
    · subst hkk; rw [hu] at h; exact absurd h (by simp)
    · simp [hkk, h]
  case isFalse hs =>
    unfold lookup at h ⊢
    rw [List.find?_append]
    have hfd : d.find? (fun p => p.1 == k) = none := by
      cases hf : d.find? (fun p => p.1 == k) with
      | none => rfl
      | some p => rw [hf] at h; simp at h
    rw [hfd]
    by_cases hkk : k' = k
    · simp [List.find?, hkk]
    · have hb : (k' == k) = false := beq_eq_false_iff_ne.mpr hkk
      simp [List.find?, hb, hkk]

/-- Folding first-wins insertions never disturbs an existing binding. -/
theorem lookup_foldl_some (k : String) (v : CwvRecord) :
    ∀ (pairs : List (String × CwvRecord)) (d0 : PyDict), lookup k d0 = some v →
      lookup k (pairs.foldl (fun d kv => dictInsert d kv.1 kv.2) d0) = some v := by
  intro pairs
  induction pairs with
  | nil => intro d0 h; simpa using h
  | cons kv rest ih =>
    intro d0 h
    rw [List.foldl_cons]
    exact ih (dictInsert d0 kv.1 kv.2) (lookup_dictInsert_some kv.1 kv.2 h)

/-- Folding first-wins insertions over a list of pairs, starting from a
dictionary without the key, looks up to the first pair with that key. -/
theorem lookup_foldl_dictInsert (k : String) :
    ∀ (pairs : List (String × CwvRecord)) (d0 : PyDict), lookup k d0 = none →
      lookup k (pairs.foldl (fun d kv => dictInsert d kv.1 kv.2) d0)
        = ((pairs.find? (fun p => p.1 == k)).map (fun p => p.2)) := by
  intro pairs
  induction pairs with
  | nil => intro d0 h; simpa using h
  | cons kv rest ih =>
    intro d0 h
    rw [List.foldl_cons]
    by_cases hkk : kv.1 = k
    · have hins : lookup k (dictInsert d0 kv.1 kv.2) = some kv.2 := by
        rw [lookup_dictInsert_none kv.1 kv.2 h]
        simp [hkk]
      have hstay := lookup_foldl_some k kv.2 rest (dictInsert d0 kv.1 kv.2) hins
      rw [hstay, List.find?_cons_of_pos _ (by simp [hkk])]
      rfl
    · have hins : lookup k (dictInsert d0 kv.1 kv.2) = none := by
        rw [lookup_dictInsert_none kv.1 kv.2 h]
        simp [hkk]
      rw [ih (dictInsert d0 kv.1 kv.2) hins, List.find?_cons_of_neg _ (by simp [hkk])]

/-- Unfolding equation for `transform_cwv` with the let bindings
substituted. -/
theorem transform_cwv_eq (fields : List String) (row : String) :
    transform_cwv fields row =
      match checkLen "fields" fields 10 with
      | Except.error e => Except.error e
      | Except.ok _ =>
        match namedtupleCheck (replace_dot_comma_space ((pySplitChar '|' row).headD ""))
            ((fields.take 10).map replace_dot_comma_space) with
        | Except.error e => Except.error e
        | Except.ok _ =>
          match checkLen "elements" (pySplitChar '|' row) 10 with
          | Except.error e => Except.error e
          | Except.ok _ =>
            Except.ok (replace_dot_comma_space ((pySplitChar '|' row).headD ""),
                       mkRec (pySplitChar '|' row)) := rfl

/-- A passing `checkLen` means the bound holds. -/
theorem checkLen_ok_le {name : String} {l : List String} {n : Nat} {u : Unit}
    (h : checkLen name l n = Except.ok u) : n <= l.length := by
  unfold checkLen at h
  by_contra hc
  rw [if_neg hc] at h
  exact absurd h (by simp)

/-- A failing bound makes `checkLen` raise the index error naming the
first failing index. -/
theorem checkLen_err {name : String} {l : List String} {n : Nat}
    (h : ¬ n <= l.length) :
    checkLen name l n
      = Except.error ("IndexError: " ++ name ++ "[" ++ toString l.length ++ "]") := by
  unfold checkLen
  rw [if_neg h]

/-- A successful dictionary fold factors through a successful `mapM` of the
row transform followed by a pure fold of first-wins insertions. -/
theorem foldlM_dict_ok (fields : List String) :
    ∀ (rows : List String) (d0 d : PyDict),
      rows.foldlM
        (fun d row => (transform_cwv fields row).map (fun kv => dictInsert d kv.1 kv.2)) d0
        = Except.ok d →
      ∃ pairs, rows.mapM (transform_cwv fields) = Except.ok pairs
        ∧ d = pairs.foldl (fun d kv => dictInsert d kv.1 kv.2) d0 := by
  intro rows
  induction rows with
  | nil =>
    intro d0 d h
    simp only [List.foldlM_nil, pure, Except.pure, Except.ok.injEq] at h
    refine ⟨[], ?_, by simp [h]⟩
    rw [List.mapM_nil]
    rfl
  | cons r rs ih =>
    intro d0 d h
    rw [List.foldlM_cons] at h
    obtain ⟨d', hd', h⟩ := (except_bind_ok _ _ _).mp h
    cases hr : transform_cwv fields r with
    | error e => rw [hr] at hd'; simp [Except.map] at hd'
    | ok kv =>
      rw [hr] at hd'
      simp only [Except.map, Except.ok.injEq] at hd'
      obtain ⟨pairs, hmap, hfold⟩ := ih d' d h
      refine ⟨kv :: pairs, ?_, ?_⟩
      · rw [List.mapM_cons, hr, hmap]
        simp [bind, Except.bind, pure, Except.pure]
      · rw [List.foldl_cons, hd', hfold]

/-- A successful `csv_to_dictionary` factors through `mapM` of the
transform, and every lookup is the first matching transformed pair. -/
theorem csv_to_dictionary_ok (csvText : String) (d : PyDict)
    (h : csv_to_dictionary csvText = Except.ok d) :
    ∃ pairs, (dataRows csvText).mapM (transform_cwv (tableFields csvText)) = Except.ok pairs
      ∧ ∀ k, lookup k d = ((pairs.find? (fun p => p.1 == k)).map (fun p => p.2)) := by
  obtain ⟨pairs, hmap, hd⟩ := foldlM_dict_ok (tableFields csvText) (dataRows csvText) [] d h
  refine ⟨pairs, hmap, fun k => ?_⟩
  rw [hd]
  exact lookup_foldl_dictInsert k pairs [] rfl

/-- Shape of a successful CWV row transform: the key is the canonicalized
first element, the record is built by `is_number` over the first ten
elements, and both index bounds hold. -/
theorem transform_cwv_ok (fields : List String) (row : String) (k : String) (rec : CwvRecord)
    (h : transform_cwv fields row = Except.ok (k, rec)) :
    k = replace_dot_comma_space ((pySplitChar '|' row).headD "")
    ∧ rec = mkRec (pySplitChar '|' row)
    ∧ 10 <= fields.length ∧ 10 <= (pySplitChar '|' row).length := by
  rw [transform_cwv_eq] at h
  cases h1 : checkLen "fields" fields 10 with
  | error e => rw [h1] at h; exact absurd h (by simp)
  | ok u =>
    rw [h1] at h
    cases h2 : namedtupleCheck (replace_dot_comma_space ((pySplitChar '|' row).headD ""))
        ((fields.take 10).map replace_dot_comma_space) with
    | error e => rw [h2] at h; exact absurd h (by simp)
    | ok u2 =>
      rw [h2] at h
      cases h3 : checkLen "elements" (pySplitChar '|' row) 10 with
      | error e => rw [h3] at h; exact absurd h (by simp)
      | ok u3 =>
        rw [h3] at h
        simp only [Except.ok.injEq, Prod.mk.injEq] at h
        exact ⟨h.1.symm, h.2.symm, checkLen_ok_le h1, checkLen_ok_le h3⟩

/-- The CWV row transform errors on the header field list when it has
fewer than ten entries, naming the first failing index. -/
theorem transform_cwv_err_fields (fields : List String) (row : String)
    (h : fields.length < 10) :
    transform_cwv fields row
      = Except.error ("IndexError: fields[" ++ toString fields.length ++ "]") := by
  rw [transform_cwv_eq, checkLen_err (by omega)]
  rfl

/-- The CWV row transform errors on the row elements when the header is
long enough, the namedtuple names validate, and the row has fewer than ten
elements, naming the first failing index. -/
theorem transform_cwv_err_elements (fields : List String) (row : String)
    (hf : 10 <= fields.length)
    (hval : namedtupleCheck (replace_dot_comma_space ((pySplitChar '|' row).headD ""))
              ((fields.take 10).map replace_dot_comma_space) = Except.ok ())
    (he : (pySplitChar '|' row).length < 10) :
    transform_cwv fields row
      = Except.error ("IndexError: elements[" ++ toString (pySplitChar '|' row).length ++ "]") := by
  rw [transform_cwv_eq]
  rw [show checkLen "fields" fields 10 = Except.ok () from by unfold checkLen; rw [if_pos hf]]
  rw [hval, checkLen_err (by omega)]
  rfl

/-- The dictionary fold succeeds exactly when the row transform succeeds on
every row. -/
theorem foldlM_dict_isOk (fields : List String) :
    ∀ (rows : List String) (d0 : PyDict),
      (rows.foldlM
        (fun d row => (transform_cwv fields row).map (fun kv => dictInsert d kv.1 kv.2)) d0).isOk
        = true
      ↔ ∀ row ∈ rows, (transform_cwv fields row).isOk = true := by
  intro rows
  induction rows with
  | nil => intro d0; simp [pure, Except.pure, Except.isOk, Except.toBool]
  | cons r rs ih =>
    intro d0
    rw [List.foldlM_cons]
    cases hr : transform_cwv fields r with
    | error e =>
      constructor
      · intro habs
        simp [Except.map, bind, Except.bind, Except.isOk, Except.toBool] at habs
      · intro hall
        have := hall r (List.mem_cons_self r rs)
        rw [hr] at this
        exact absurd this (by simp [Except.isOk, Except.toBool])
    | ok kv =>
      have hstep : (Except.map (fun kv => dictInsert d0 kv.1 kv.2) (Except.ok kv)
            >>= fun d' => rs.foldlM
              (fun d row => (transform_cwv fields row).map (fun kv => dictInsert d kv.1 kv.2)) d')
          = rs.foldlM
              (fun d row => (transform_cwv fields row).map (fun kv => dictInsert d kv.1 kv.2))
              (dictInsert d0 kv.1 kv.2) := rfl
      rw [hstep, ih (dictInsert d0 kv.1 kv.2)]
      constructor
      · intro hall row hrow
        rcases List.mem_cons.mp hrow with hrow | hrow
        · rw [hrow, hr]; rfl
        · exact hall row hrow
      · intro hall row hrow
        exact hall row (List.mem_cons_of_mem r hrow)

/-- Success condition of the CWV row transform: long-enough header, valid
namedtuple names, and at least ten row elements. -/
theorem transform_cwv_isOk (fields : List String) (row : String) :
    (transform_cwv fields row).isOk = true ↔
      10 <= fields.length
      ∧ (namedtupleCheck (replace_dot_comma_space ((pySplitChar '|' row).headD ""))
           ((fields.take 10).map replace_dot_comma_space)).isOk = true
      ∧ 10 <= (pySplitChar '|' row).length := by
  rw [transform_cwv_eq]
  by_cases hf : 10 <= fields.length
  · rw [show checkLen "fields" fields 10 = Except.ok () from by unfold checkLen; rw [if_pos hf]]
    cases hv : namedtupleCheck (replace_dot_comma_space ((pySplitChar '|' row).headD ""))
        ((fields.take 10).map replace_dot_comma_space) with
    | error e => simp [hf, Except.isOk, Except.toBool]
    | ok u =>
      by_cases he : 10 <= (pySplitChar '|' row).length
      · rw [show checkLen "elements" (pySplitChar '|' row) 10 = Except.ok () from by
          unfold checkLen; rw [if_pos he]]
        simp [hf, he, Except.isOk, Except.toBool]
      · rw [checkLen_err he]
        simp [hf, he, Except.isOk, Except.toBool]
  · rw [checkLen_err hf]
    simp [hf, Except.isOk, Except.toBool]

/-- Replacing a pattern that does not occur leaves the scanned list
unchanged, whatever the fuel. -/
theorem pyReplaceAux_no_occ (pat rep : List Char) :
    ∀ (fuel : Nat) (l : List Char), (l.tails.any (fun t => pat.isPrefixOf t)) = false →
      pyReplaceAux pat rep fuel l = l := by
  intro fuel
  induction fuel with
  | zero => intro l _; cases l <;> rfl
  | succ n ih =>
    intro l h
    cases l with
    | nil => rfl
    | cons c rest =>
      rw [List.tails_cons, List.any_cons, Bool.or_eq_false_iff] at h
      rw [pyReplaceAux]
      rw [if_neg (fun hcon => by rw [hcon.2] at h; exact absurd h.1 (by simp))]
      rw [ih rest h.2]

/-- Replacing a pattern that does not occur leaves the character list
unchanged. -/
theorem pyReplaceChars_no_occ (pat rep : List Char) :
    ∀ l : List Char, (l.tails.any (fun t => pat.isPrefixOf t)) = false →
      pyReplaceChars pat rep l = l :=
  fun l h => pyReplaceAux_no_occ pat rep l.length l h

/-- Replacing a pattern that does not occur leaves the string unchanged. -/
theorem pyReplaceStr_no_occ (s pat rep : String) (h : strContains s pat = false) :
    pyReplaceStr s pat rep = s := by
  unfold pyReplaceStr
  rw [pyReplaceChars_no_occ pat.data rep.data s.data h]

/-- An in-range `getD` element is a member of the list. -/
theorem getD_mem_of_lt (l : List String) (i : Nat) (hi : i < l.length) :
    l.getD i "" ∈ l := by
  rw [List.getD_eq_getElem l "" hi]
  exact List.getElem_mem hi

/-- Each value stored by `is_number` from an in-range element is either
that element verbatim or the boolean `False`. -/
theorem is_number_mem_shape (l : List String) (i : Nat) (hi : i < l.length) :
    (∃ e ∈ l, is_number (l.getD i "") = PyVal.str e)
    ∨ is_number (l.getD i "") = PyVal.bool false := by
  rcases is_number_shape (l.getD i "") with h | h
  · exact Or.inl ⟨l.getD i "", getD_mem_of_lt l i hi, h⟩
  · exact Or.inr h

/-! ## The claims -/

/-- Claim C2, counterexample.  The claim states that when both the float
parse and the complex parse fail, the helper returns the original input
string unchanged.  On the input "foo" both parses fail and `is_number`
returns the Python boolean `False`, not the string "foo". -/
theorem claim2_counterexample :
    is_number "foo" = PyVal.bool false ∧ PyVal.bool false ≠ PyVal.str "foo" := by
  decide

/-- Claim C2 (amended): the numeric-parsing helper is total over strings
and never raises; it attempts a float parse, on failure attempts a complex
parse, and returns the original input unchanged when either succeeds, but
returns the Python boolean `False` — not the original string — when both
fail.  Totality is witnessed by `is_number` being a total function. -/
theorem claim2_total_float_then_complex (v : String) :
    (isPyFloat v = true ∨ isPyComplex v = true → is_number v = PyVal.str v)
    ∧ (isPyFloat v = false → isPyComplex v = false → is_number v = PyVal.bool false) := by
  unfold is_number
  constructor
  · rintro (h | h)
    · rw [if_pos h]
    · by_cases h1 : isPyFloat v
      · rw [if_pos h1]
      · rw [if_neg h1, if_pos h]
  · intro h1 h2
    rw [if_neg (by simp [h1]), if_neg (by simp [h2])]

/-- Claim C2, witness: the float branch on "0.971", the complex branch on
"1j", and the double-failure branch on "Cropland". -/
theorem claim2_witness :
    is_number "0.971" = PyVal.str "0.971"
    ∧ is_number "1j" = PyVal.str "1j"
    ∧ is_number "Cropland" = PyVal.bool false :=
  ⟨(claim2_total_float_then_complex "0.971").1 (Or.inl (by decide)),
   (claim2_total_float_then_complex "1j").1 (Or.inr (by decide)),
   (claim2_total_float_then_complex "Cropland").2 (by decide) (by decide)⟩

/-- Claim C3, counterexample.  The claim states that when one placeholder's
replacement text contains another placeholder's token, that token is not
substituted again.  Binding the expression "Input_T10" with t10 =
"Input_T11" and t11 = "X" yields "X": the first pass produces "Input_T11",
and the second pass substitutes that reintroduced token again.  Under the
claim the result would be "Input_T11". -/
theorem claim3_counterexample :
    replace_dummies "Input_T10" "Input_T11" "X" = "X"
    ∧ ("X" : String) ≠ "Input_T11" := by
  decide

/-- Claim C3 (amended): binding is not a single non-rescanning pass but two
sequential global replacements in a fixed order — all occurrences of
Input_T10 are replaced by t10 over the whole expression, then all
occurrences of Input_T11 in that intermediate result are replaced by t11 —
so a later token contained in an earlier replacement text is substituted
again, and performing the two replacements in the opposite order can give
a different result. -/
theorem claim3_sequential_rescanning :
    (∀ s t10 t11 : String,
        replace_dummies s t10 t11 = pyReplaceStr (pyReplaceStr s "Input_T10" t10) "Input_T11" t11)
    ∧ replace_dummies "Input_T10" "Input_T11" "X" = "X"
    ∧ pyReplaceStr (pyReplaceStr "Input_T10" "Input_T11" "X") "Input_T10" "Input_T11"
        = "Input_T11" := by
  refine ⟨fun s t10 t11 => rfl, by decide, by decide⟩

/-- Claim C4, counterexample.  The claim states that binding replaces every
occurrence of every declared placeholder token with its bound value and
leaves every other substring unaltered.  In the expression
"Input_T10_T11x" the only token occurrence is Input_T10 at the start, so
under the claim the result of binding t10 = "Input" and t11 = "Y" would be
"Input" ++ "_T11x" = "Input_T11x"; the code instead rescans and produces
"Yx", altering the substring "_T11x" that lies outside every token
occurrence of the original expression.  The code also has no
MissingPlaceholderError: no error path exists in `replace_dummies`. -/
theorem claim4_counterexample :
    replace_dummies "Input_T10_T11x" "Input" "Y" = "Yx"
    ∧ ("Yx" : String) ≠ "Input_T11x" := by
  decide

/-- Claim C4 (amended): binding replaces the two declared tokens by two
sequential global replacements and never fails — there is no
MissingPlaceholderError; the placeholder map is hard-coded to bind both
tokens, and any other content passes through silently.  In particular an
expression containing neither token is returned completely unaltered, and
in an expression where the tokens occur apart the occurrences are replaced
with all other substrings kept. -/
theorem claim4_bind_no_error (s t10 t11 : String)
    (h10 : strContains s "Input_T10" = false)
    (h11 : strContains s "Input_T11" = false) :
    replace_dummies s t10 t11 = s := by
  show pyReplaceStr (pyReplaceStr s "Input_T10" t10) "Input_T11" t11 = s
  rw [pyReplaceStr_no_occ s "Input_T10" t10 h10, pyReplaceStr_no_occ s "Input_T11" t11 h11]

/-- Claim C4, witness: an expression free of both tokens is unaltered, via
the amended theorem. -/
theorem claim4_witness :
    replace_dummies "0.5 + 0.99 * (B10 + B11)" "mapA" "mapB" = "0.5 + 0.99 * (B10 + B11)" :=
  claim4_bind_no_error "0.5 + 0.99 * (B10 + B11)" "mapA" "mapB" (by decide) (by decide)

/-- Claim C5: key canonicalization applies the fixed replacement sequence,
so "Barren Land" canonicalizes to "Barren_Land" and "Snow and ice" to
"Snow_and_ice"; the third conjunct shows the comma-space pair is handled
before the bare comma and space ("x, y" gives "x_y", not "x__y"), and the
fourth exercises the period, parenthesis and slash rules. -/
theorem claim5_canonicalization :
    replace_dot_comma_space "Barren Land" = "Barren_Land"
    ∧ replace_dot_comma_space "Snow and ice" = "Snow_and_ice"
    ∧ replace_dot_comma_space "x, y" = "x_y"
    ∧ replace_dot_comma_space "a.b (c)/d" = "ab_c_d" := by
  decide

/-- Concrete split-window model for the end-to-end scenario of the spec:
emissivities 0.971 and 0.968, coefficients b0 = 0.5, b1 = 1, b2 ... b7 = 0,
rmse = 0.1 (all as exact rationals). -/
def c8_model : SplitWindowModel :=
  ⟨⟨971/1000, 968/1000⟩, ⟨1/2, 1, 0, 0, 0, 0, 0, 0, 1/10⟩⟩

/-- Claim C8: for the emissivity pair (0.971, 0.968) and coefficients
b0 = 0.5, b1 = 1, rest zero, the compute on t_i = 300 and t_j = 299
derives the average emissivity 0.9695 = 1939/2000 and the emissivity
difference 0.003 = 3/1000, and returns LST = 300. -/
theorem claim8_end_to_end :
    c8_model.epsilonAvg = 1939/2000
    ∧ c8_model.epsilonDiff = 3/1000
    ∧ c8_model.compute 300 299 = Except.ok 300 := by
  refine ⟨?_, ?_, ?_⟩
  · norm_num [SplitWindowModel.epsilonAvg, c8_model]
  · norm_num [SplitWindowModel.epsilonDiff, c8_model]
  · unfold SplitWindowModel.compute
    rw [if_neg (by norm_num [SplitWindowModel.epsilonAvg, c8_model])]
    congr 1
    norm_num [SplitWindowModel.epsilonAvg, SplitWindowModel.epsilonDiff, c8_model]

/-- Claim C9: whenever one of the two emissivities is zero and the derived
average emissivity is zero, `compute` fails with DomainError instead of
dividing by zero; the model itself is built by a total structure
constructor from any emissivity pair and coefficient set, so construction
never fails. -/
theorem claim9_domain_error (e : Emissivity) (c : SplitWindowCoefficients) (ti tj : Rat)
    (hzero : e.ei = 0 ∨ e.ej = 0)
    (havg : SplitWindowModel.epsilonAvg ⟨e, c⟩ = 0) :
    SplitWindowModel.compute ⟨e, c⟩ ti tj = Except.error "DomainError" := by
  unfold SplitWindowModel.compute
  rw [if_pos havg]

/-- Claim C9, witness: both emissivities zero. -/
theorem claim9_witness :
    SplitWindowModel.compute ⟨⟨0, 0⟩, ⟨1, 1, 1, 1, 1, 1, 1, 1, 1⟩⟩ 300 299
      = Except.error "DomainError" :=
  claim9_domain_error ⟨0, 0⟩ ⟨1, 1, 1, 1, 1, 1, 1, 1, 1⟩ 300 299 (Or.inl rfl)
    (by norm_num [SplitWindowModel.epsilonAvg])

/-- Concrete CWV-shaped table: one data row with key S1, nine parseable
numeric fields and the non-numeric final field "foo". -/
def c1_cex_csv : String :=
  "Key|sr|b0|b1|b2|b3|b4|b5|b6|b7|rmse\nS1|0.5|1|0|0|0|0|0|0|foo"

/-- Dictionary parsed from `c1_cex_csv`. -/
def c1_cex_dict : PyDict := (csv_to_dictionary c1_cex_csv).toOption.getD []

/-- Record looked up for key S1 in `c1_cex_dict`. -/
def c1_cex_rec : CwvRecord := (lookup "S1" c1_cex_dict).getD emptyRec

/-- Claim C1, counterexample.  The claim states that lookup returns numeric
fields converted to numbers and non-numeric fields preserved verbatim as
strings.  In the parsed table the numeric field "0.5" is returned as the
unconverted string "0.5", and the non-numeric field "foo" is returned as
the Python boolean `False`, not as the string "foo". -/
theorem claim1_counterexample :
    csv_to_dictionary c1_cex_csv = Except.ok c1_cex_dict
    ∧ lookup "S1" c1_cex_dict = some c1_cex_rec
    ∧ c1_cex_rec.b0 = PyVal.str "0.5"
    ∧ c1_cex_rec.rmse = PyVal.bool false
    ∧ c1_cex_rec.rmse ≠ PyVal.str "foo" := by
  decide

/-- Claim C1 (amended): for a table that parses with distinct keys, looking
up a key returns exactly the record computed from that key's source row,
where each stored field value is `is_number` of the corresponding row
element — the verbatim field string when it parses as a float or complex
number, and the Python boolean `False` otherwise; numeric fields are not
converted to number objects. -/
theorem claim1_lookup_returns_row_values (csvText : String) (d : PyDict)
    (k : String) (rec : CwvRecord)
    (h : csv_to_dictionary csvText = Except.ok d) (hl : lookup k d = some rec) :
    ∃ row ∈ dataRows csvText,
      transform_cwv (tableFields csvText) row = Except.ok (k, rec)
      ∧ rec = mkRec (pySplitChar '|' row)
      ∧ ∀ v ∈ recVals rec,
          (∃ e ∈ pySplitChar '|' row, v = PyVal.str e) ∨ v = PyVal.bool false := by
  obtain ⟨pairs, hmap, hlook⟩ := csv_to_dictionary_ok csvText d h
  rw [hlook k] at hl
  obtain ⟨p, hp, hpv⟩ := Option.map_eq_some'.mp hl
  have hmem := List.mem_of_find?_eq_some hp
  have hpk : p.1 = k := by have := List.find?_some hp; simpa using this
  obtain ⟨row, hrow, hokrow⟩ := mapM_ok_mem (transform_cwv (tableFields csvText)) _ pairs hmap p hmem
  have hpeq : p = (k, rec) := by
    obtain ⟨p1, p2⟩ := p
    simp only at hpk hpv
    rw [hpk, hpv]
  rw [hpeq] at hokrow
  obtain ⟨hkey, hrec, hflen, helen⟩ := transform_cwv_ok _ _ _ _ hokrow
  refine ⟨row, hrow, hokrow, hrec, ?_⟩
  intro v hv
  rw [hrec] at hv
  have hvals : recVals (mkRec (pySplitChar '|' row)) =
      [is_number ((pySplitChar '|' row).getD 0 ""), is_number ((pySplitChar '|' row).getD 1 ""),
       is_number ((pySplitChar '|' row).getD 2 ""), is_number ((pySplitChar '|' row).getD 3 ""),
       is_number ((pySplitChar '|' row).getD 4 ""), is_number ((pySplitChar '|' row).getD 5 ""),
       is_number ((pySplitChar '|' row).getD 6 ""), is_number ((pySplitChar '|' row).getD 7 ""),
       is_number ((pySplitChar '|' row).getD 8 ""), is_number ((pySplitChar '|' row).getD 9 "")] := rfl
  rw [hvals] at hv
  simp only [List.mem_cons, List.not_mem_nil, or_false] at hv
  rcases hv with hv | hv | hv | hv | hv | hv | hv | hv | hv | hv <;>
    (subst hv; exact is_number_mem_shape _ _ (by omega))

/-- Claim C1, witness at the concrete table `c1_cex_csv`. -/
theorem claim1_witness :
    ∃ row ∈ dataRows c1_cex_csv,
      transform_cwv (tableFields c1_cex_csv) row = Except.ok ("S1", c1_cex_rec)
      ∧ c1_cex_rec = mkRec (pySplitChar '|' row)
      ∧ ∀ v ∈ recVals c1_cex_rec,
          (∃ e ∈ pySplitChar '|' row, v = PyVal.str e) ∨ v = PyVal.bool false :=
  claim1_lookup_returns_row_values c1_cex_csv c1_cex_dict "S1" c1_cex_rec
    (by decide) (by decide)

/-- Claim C6: when the transformed rows contain two pairs with the same
canonicalized key and the first of them is the first occurrence of that
key, lookup returns the record of the first occurrence; the later
duplicate row is silently discarded. -/
theorem claim6_first_wins (csvText : String) (d : PyDict)
    (pairs pre mid post : List (String × CwvRecord)) (k : String) (r1 r2 : CwvRecord)
    (hok : csv_to_dictionary csvText = Except.ok d)
    (hmap : (dataRows csvText).mapM (transform_cwv (tableFields csvText)) = Except.ok pairs)
    (hsplit : pairs = pre ++ (k, r1) :: (mid ++ (k, r2) :: post))
    (hpre : ∀ p ∈ pre, p.1 ≠ k) :
    lookup k d = some r1 := by
  obtain ⟨pairs', hmap', hlook⟩ := csv_to_dictionary_ok csvText d hok
  rw [hmap] at hmap'
  have hpp : pairs = pairs' := Except.ok.inj hmap'
  rw [hlook k, ← hpp, hsplit, List.find?_append]
  have hnone : pre.find? (fun p => p.1 == k) = none :=
    List.find?_eq_none.mpr (fun p hp => by simp [hpre p hp])
  rw [hnone, List.find?_cons_of_pos _ (by simp)]
  rfl

/-- Concrete table with two rows whose keys canonicalize to the same
token A_B ("A B" and "A_B"). -/
def c6_csv : String :=
  "Key|sr|b0|b1|b2|b3|b4|b5|b6|b7|rmse\nA B|1|2|3|4|5|6|7|8|9\nA_B|9|8|7|6|5|4|3|2|1"

/-- Dictionary parsed from `c6_csv`. -/
def c6_dict : PyDict := (csv_to_dictionary c6_csv).toOption.getD []

/-- Transformed pairs of `c6_csv` in row order. -/
def c6_pairs : List (String × CwvRecord) :=
  ((dataRows c6_csv).mapM (transform_cwv (tableFields c6_csv))).toOption.getD []

/-- Record of the first duplicate row of `c6_csv`. -/
def c6_r1 : CwvRecord := (c6_pairs.getD 0 ("", emptyRec)).2

/-- Record of the second duplicate row of `c6_csv`. -/
def c6_r2 : CwvRecord := (c6_pairs.getD 1 ("", emptyRec)).2

/-- Claim C6, witness at the concrete duplicate-key table. -/
theorem claim6_witness : lookup "A_B" c6_dict = some c6_r1 :=
  claim6_first_wins c6_csv c6_dict c6_pairs [] [] [] "A_B" c6_r1 c6_r2
    (by decide) (by decide) (by decide) (by decide)

/-- Concrete table whose single data row has eleven values (twelve
delimiter-separated elements including the key) against ten header
fields. -/
def c7_cex_csv : String := "Key|a|b|c|d|e|f|g|h|i|j\nx|1|2|3|4|5|6|7|8|9|10|11"

/-- Claim C7, counterexample.  The claim states that a data row whose
value count differs from the header field count makes parsing fail with
MalformedRowError.  Here the row carries eleven values against ten header
fields, yet dictionary construction succeeds: the code never compares a
row's value count with the header field count and silently ignores the
surplus values. -/
theorem claim7_counterexample :
    (csv_to_dictionary c7_cex_csv).isOk = true
    ∧ (pySplitChar '|' "x|1|2|3|4|5|6|7|8|9|10|11").length = 12
    ∧ (tableFields c7_cex_csv).length = 10 := by
  decide

/-- Claim C7 (amended): dictionary construction succeeds exactly when
every data row passes the CWV transform, and the transform succeeds
exactly when the header supplies at least ten fields, the namedtuple
names validate, and the row has at least ten elements — there is no
comparison of a row's value count against the header field count, rows
with surplus values are accepted, and the failure on short rows is an
index error, not a MalformedRowError. -/
theorem claim7_no_field_count_check :
    (∀ csvText : String, (csv_to_dictionary csvText).isOk = true ↔
        ∀ row ∈ dataRows csvText, (transform_cwv (tableFields csvText) row).isOk = true)
    ∧ (∀ (fields : List String) (row : String), (transform_cwv fields row).isOk = true ↔
        (10 <= fields.length
         ∧ (namedtupleCheck (replace_dot_comma_space ((pySplitChar '|' row).headD ""))
              ((fields.take 10).map replace_dot_comma_space)).isOk = true
         ∧ 10 <= (pySplitChar '|' row).length)) :=
  ⟨fun csvText => foldlM_dict_isOk (tableFields csvText) (dataRows csvText) [],
   fun fields row => transform_cwv_isOk fields row⟩

/-- Claim C7, witness: the success criterion discharged on the concrete
surplus-value table. -/
theorem claim7_witness : (csv_to_dictionary c7_cex_csv).isOk = true :=
  (claim7_no_field_count_check.1 c7_cex_csv).mpr (by decide)

/-- Claim C10, counterexample.  The claim states that a table whose data
rows have fewer than ten fields — including the embedded 3-column
emissivity table — fails with an out-of-range index access on elements[3]
through elements[9].  Feeding the embedded emissivity table to dictionary
construction does fail, but on the header-derived field-name list at
fields[2] (the namedtuple argument `fields[2]` is evaluated before any of
`elements[1] ... elements[9]`), not on the elements list. -/
theorem claim10_counterexample :
    csv_to_dictionary embedded_emissivity_csv = Except.error "IndexError: fields[2]" := by
  decide

/-- Claim C10 (amended): every data row is processed by the ten-field CWV
transform (`csv_to_dictionary` invokes `transform_cwv` only; the 3-field
`transform` is defined but not called), so construction on a table whose
first data row has fewer than ten delimiter-separated elements fails with
an out-of-range index access: at fields[n] (n the header field count) when
the header itself supplies fewer than ten field names — the case of the
embedded 3-column emissivity table, which fails at fields[2] — and
otherwise at elements[m] (m the element count of the row). -/
theorem claim10_short_rows_index_error (csvText row : String) (rest : List String)
    (hrows : dataRows csvText = row :: rest)
    (hshort : (pySplitChar '|' row).length < 10)
    (hval : 10 <= (tableFields csvText).length →
        namedtupleCheck (replace_dot_comma_space ((pySplitChar '|' row).headD ""))
          (((tableFields csvText).take 10).map replace_dot_comma_space) = Except.ok ()) :
    csv_to_dictionary csvText =
      Except.error
        (if (tableFields csvText).length < 10
         then "IndexError: fields[" ++ toString (tableFields csvText).length ++ "]"
         else "IndexError: elements[" ++ toString (pySplitChar '|' row).length ++ "]") := by
  unfold csv_to_dictionary
  rw [hrows, List.foldlM_cons]
  by_cases hf : (tableFields csvText).length < 10
  · rw [transform_cwv_err_fields _ _ hf, if_pos hf]
    rfl
  · rw [transform_cwv_err_elements _ _ (by omega) (hval (by omega)) hshort, if_neg hf]
    rfl

/-- Concrete table with a ten-field header and a 3-column data row. -/
def c10_w_csv : String := "Key|a0|a1|a2|a3|a4|a5|a6|a7|a8|a9\nCropland|0.9|0.9"

/-- Claim C10, witness: with a long-enough header, the 3-element data row
fails at elements[3], as predicted by the amended claim. -/
theorem claim10_witness :
    csv_to_dictionary c10_w_csv = Except.error "IndexError: elements[3]" := by
  have h := claim10_short_rows_index_error c10_w_csv "Cropland|0.9|0.9" []
    (by decide) (by decide) (fun _ => by decide)
  rw [if_neg (by decide)] at h
  rw [show ("IndexError: elements[" ++ toString (pySplitChar '|' "Cropland|0.9|0.9").length ++ "]")
      = "IndexError: elements[3]" from by decide] at h
  exact h
